import Mathlib

/-!
Verification of the numeric utility functions of the `autogen_example`
notebook: `calculate_vpd` (vapor pressure deficit via the Magnus formula)
and `fahrenheit_to_celsius`.  The Python floats are embedded as real
numbers; `math.exp` becomes `Real.exp`.
-/

open Real

/-- Vapor Pressure Deficit (VPD) given temperature and dew point in Celsius,
embedded from `calculate_vpd` in the notebook: with `a = 17.625` and
`b = 243.04`, `e_s = 6.1094 * exp((a * temperature_c) / (b + temperature_c))`,
`e_a = 6.1094 * exp((a * dew_point_c) / (b + dew_point_c))`, result `e_s - e_a`. -/
noncomputable def calculate_vpd (temperature_c : ℝ) (dew_point_c : ℝ) : ℝ :=
  let a : ℝ := 17.625
  let b : ℝ := 243.04
  let e_s : ℝ := 6.1094 * Real.exp ((a * temperature_c) / (b + temperature_c))
  let e_a : ℝ := 6.1094 * Real.exp ((a * dew_point_c) / (b + dew_point_c))
  let vpd : ℝ := e_s - e_a
  vpd

/-- Converts temperature from Fahrenheit to Celsius, embedded from
`fahrenheit_to_celsius` in the notebook: `(fahrenheit - 32) * 5.0 / 9.0`. -/
noncomputable def fahrenheit_to_celsius (fahrenheit : ℝ) : ℝ :=
  (fahrenheit - 32) * 5.0 / 9.0

/-- C1: for every pair of real inputs, `calculate_vpd` returns `e_s - e_a`
where `e_s` and `e_a` are the Magnus formula with numerator coefficient
17.625, denominator offset 243.04 and scale coefficient 6.1094 applied to the
temperature and the dew point respectively.  (Proved for all real inputs,
which covers in particular the inputs with nonzero denominators.) -/
theorem calculate_vpd_is_magnus_difference (temperature_c dew_point_c : ℝ) :
    calculate_vpd temperature_c dew_point_c =
      6.1094 * Real.exp (17.625 * temperature_c / (243.04 + temperature_c)) -
        6.1094 * Real.exp (17.625 * dew_point_c / (243.04 + dew_point_c)) := rfl

/-- C2: `fahrenheit_to_celsius` computes `(fahrenheit - 32) * 5 / 9` for every
real input (a total function, no failure modes), and in particular maps 32 to
0 and 212 to 100. -/
theorem fahrenheit_to_celsius_spec :
    (∀ fahrenheit : ℝ,
        fahrenheit_to_celsius fahrenheit = (fahrenheit - 32) * 5 / 9) ∧
      fahrenheit_to_celsius 32 = 0 ∧ fahrenheit_to_celsius 212 = 100 := by
  refine ⟨fun f => ?_, ?_, ?_⟩ <;> norm_num [fahrenheit_to_celsius]

/-- C5: equal temperature and dew point yield a zero vapor pressure deficit:
`calculate_vpd t t = 0` for every real `t` (in particular whenever
`243.04 + t` is nonzero). -/
theorem calculate_vpd_self_eq_zero (t : ℝ) : calculate_vpd t t = 0 := by
  simp [calculate_vpd]

/-- C7: composing the Celsius-to-Fahrenheit inverse `c * 9 / 5 + 32` with
`fahrenheit_to_celsius` is the identity (exactly, over the reals). -/
theorem fahrenheit_to_celsius_roundtrip (c : ℝ) :
    fahrenheit_to_celsius (c * 9 / 5 + 32) = c := by
  unfold fahrenheit_to_celsius
  ring

/-- The Magnus exponent `17.625 * x / (243.04 + x)` is strictly increasing on
the branch `x > -243.04`. -/
lemma magnus_ratio_strict_mono {x y : ℝ} (hx : -243.04 < x) (hxy : x < y) :
    17.625 * x / (243.04 + x) < 17.625 * y / (243.04 + y) := by
  have hx' : (0 : ℝ) < 243.04 + x := by linarith
  have hy' : (0 : ℝ) < 243.04 + y := by linarith
  rw [div_lt_div_iff₀ hx' hy']
  nlinarith

/-- Rigorous bounds on `exp (34517/53608)`, the fractional part of the Magnus
exponent at temperature 25, from the degree-6 Taylor remainder bound. -/
lemma exp_z_25_bounds :
    1.9036249 ≤ Real.exp (34517 / 53608 : ℝ) ∧
      Real.exp (34517 / 53608 : ℝ) ≤ 1.9038559 := by
  have habs : |(34517 / 53608 : ℝ)| ≤ 1 := by
    rw [abs_of_nonneg] <;> norm_num
  have h := @Real.exp_bound (34517 / 53608 : ℝ) habs 6 (by norm_num)
  rw [abs_le] at h
  obtain ⟨hl, hr⟩ := h
  rw [abs_of_nonneg (by norm_num : (0 : ℝ) ≤ 34517 / 53608)] at hl hr
  norm_num [Finset.sum_range_succ, Nat.factorial] at hl hr
  constructor <;> linarith

/-- Rigorous bounds on `exp (1491/4384)`, the fractional part of the Magnus
exponent at dew point 20, from the degree-6 Taylor remainder bound. -/
lemma exp_w_20_bounds :
    1.4050838 ≤ Real.exp (1491 / 4384 : ℝ) ∧
      Real.exp (1491 / 4384 : ℝ) ≤ 1.4050889 := by
  have habs : |(1491 / 4384 : ℝ)| ≤ 1 := by
    rw [abs_of_nonneg] <;> norm_num
  have h := @Real.exp_bound (1491 / 4384 : ℝ) habs 6 (by norm_num)
  rw [abs_le] at h
  obtain ⟨hl, hr⟩ := h
  rw [abs_of_nonneg (by norm_num : (0 : ℝ) ≤ 1491 / 4384)] at hl hr
  norm_num [Finset.sum_range_succ, Nat.factorial] at hl hr
  constructor <;> linarith

/-- Rigorous bounds on the saturation-side exponential at temperature 25. -/
lemma exp_x_25_bounds :
    5.1745 ≤ Real.exp (17.625 * 25 / (243.04 + 25)) ∧
      Real.exp (17.625 * 25 / (243.04 + 25)) ≤ 5.1753 := by
  have hx : (17.625 * 25 : ℝ) / (243.04 + 25) = 1 + 34517 / 53608 := by
    norm_num
  have hsplit : Real.exp (17.625 * 25 / (243.04 + 25)) =
      Real.exp 1 * Real.exp (34517 / 53608 : ℝ) := by
    rw [hx, Real.exp_add]
  obtain ⟨hzl, hzr⟩ := exp_z_25_bounds
  constructor
  · rw [hsplit]
    have h := mul_le_mul Real.exp_one_gt_d9.le hzl (by norm_num)
      (Real.exp_pos 1).le
    nlinarith [h]
  · rw [hsplit]
    have h := mul_le_mul Real.exp_one_lt_d9.le hzr (Real.exp_pos _).le
      (by norm_num : (0 : ℝ) ≤ 2.7182818286)
    nlinarith [h]

/-- Rigorous bounds on the actual-vapor-side exponential at dew point 20. -/
lemma exp_y_20_bounds :
    3.8193 ≤ Real.exp (17.625 * 20 / (243.04 + 20)) ∧
      Real.exp (17.625 * 20 / (243.04 + 20)) ≤ 3.8196 := by
  have hy : (17.625 * 20 : ℝ) / (243.04 + 20) = 1 + 1491 / 4384 := by
    norm_num
  have hsplit : Real.exp (17.625 * 20 / (243.04 + 20)) =
      Real.exp 1 * Real.exp (1491 / 4384 : ℝ) := by
    rw [hy, Real.exp_add]
  obtain ⟨hwl, hwr⟩ := exp_w_20_bounds
  constructor
  · rw [hsplit]
    have h := mul_le_mul Real.exp_one_gt_d9.le hwl (by norm_num)
      (Real.exp_pos 1).le
    nlinarith [h]
  · rw [hsplit]
    have h := mul_le_mul Real.exp_one_lt_d9.le hwr (Real.exp_pos _).le
      (by norm_num : (0 : ℝ) ≤ 2.7182818286)
    nlinarith [h]

/-- Rigorous enclosure of `calculate_vpd 25 20`. -/
lemma vpd_25_20_bounds :
    8.27 < calculate_vpd 25 20 ∧ calculate_vpd 25 20 < 8.29 := by
  obtain ⟨hxl, hxr⟩ := exp_x_25_bounds
  obtain ⟨hyl, hyr⟩ := exp_y_20_bounds
  constructor
  · show 8.27 < 6.1094 * Real.exp (17.625 * 25 / (243.04 + 25)) -
        6.1094 * Real.exp (17.625 * 20 / (243.04 + 20))
    nlinarith
  · show 6.1094 * Real.exp (17.625 * 25 / (243.04 + 25)) -
        6.1094 * Real.exp (17.625 * 20 / (243.04 + 20)) < 8.29
    nlinarith

/-- C3 counterexample: `calculate_vpd 25 20` is not approximately 0.88; it is
not even within 1 of 0.88 (the true value is about 8.28). -/
theorem calculate_vpd_25_20_far_from_088 :
    ¬ |calculate_vpd 25 20 - 0.88| < 1 := by
  intro habs
  rw [abs_lt] at habs
  have h := vpd_25_20_bounds.1
  linarith [habs.2]

/-- C3 amended: `calculate_vpd 25 20` is approximately 8.28 hPa (within
0.01 hPa). -/
theorem calculate_vpd_25_20_approx :
    |calculate_vpd 25 20 - 8.28| < 0.01 := by
  obtain ⟨hl, hr⟩ := vpd_25_20_bounds
  rw [abs_lt]
  constructor <;> linarith

/-- C8: whenever the dew point strictly exceeds the temperature and both are
above -243.04, `calculate_vpd` returns a negative value (supersaturation is
not rejected; the negative value is returned as-is). -/
theorem calculate_vpd_neg_of_supersaturation (t d : ℝ)
    (ht : -243.04 < t) (htd : t < d) : calculate_vpd t d < 0 := by
  have h := Real.exp_lt_exp.2 (magnus_ratio_strict_mono ht htd)
  show 6.1094 * Real.exp (17.625 * t / (243.04 + t)) -
      6.1094 * Real.exp (17.625 * d / (243.04 + d)) < 0
  nlinarith

/-- Witness for C8 at the concrete input `(0, 1)`. -/
theorem calculate_vpd_neg_of_supersaturation_witness :
    (-243.04 : ℝ) < 0 ∧ (0 : ℝ) < 1 ∧ calculate_vpd 0 1 < 0 :=
  ⟨by norm_num, by norm_num,
    calculate_vpd_neg_of_supersaturation 0 1 (by norm_num) (by norm_num)⟩

/-- C10: whenever the temperature strictly exceeds the dew point and both are
above -243.04, `calculate_vpd` returns a strictly positive value. -/
theorem calculate_vpd_pos_of_temp_above_dew (t d : ℝ)
    (hd : -243.04 < d) (hdt : d < t) : 0 < calculate_vpd t d := by
  have h := Real.exp_lt_exp.2 (magnus_ratio_strict_mono hd hdt)
  show 0 < 6.1094 * Real.exp (17.625 * t / (243.04 + t)) -
      6.1094 * Real.exp (17.625 * d / (243.04 + d))
  nlinarith

/-- Witness for C10 at the concrete input `(1, 0)`. -/
theorem calculate_vpd_pos_of_temp_above_dew_witness :
    (-243.04 : ℝ) < 0 ∧ (0 : ℝ) < 1 ∧ 0 < calculate_vpd 1 0 :=
  ⟨by norm_num, by norm_num,
    calculate_vpd_pos_of_temp_above_dew 1 0 (by norm_num) (by norm_num)⟩

/-- C6 counterexample: without a lower bound on the dew point arguments the
claimed strict decrease in the dew point fails.  At temperature 25, the dew
points `-486.08 < 25` give `calculate_vpd 25 (-486.08) < calculate_vpd 25 25`
(the Magnus exponent evaluates to `35.25` at `-486.08`, on the far side of the
pole at `-243.04`), refuting `d1 < d2 → calculate_vpd t d1 > calculate_vpd t d2`. -/
theorem calculate_vpd_dew_mono_counterexample :
    (-486.08 : ℝ) < 25 ∧
      ¬ calculate_vpd 25 (-486.08) > calculate_vpd 25 25 := by
  constructor
  · norm_num
  · have h1 : (17.625 * 25 : ℝ) / (243.04 + 25) <
        17.625 * (-486.08) / (243.04 + -486.08) := by norm_num
    have h2 := Real.exp_lt_exp.2 h1
    show ¬ 6.1094 * Real.exp (17.625 * 25 / (243.04 + 25)) -
        6.1094 * Real.exp (17.625 * (-486.08) / (243.04 + -486.08)) >
        6.1094 * Real.exp (17.625 * 25 / (243.04 + 25)) -
        6.1094 * Real.exp (17.625 * 25 / (243.04 + 25))
    push_neg
    nlinarith

/-- C6 amended: restricted to arguments above -243.04 (the pole of the Magnus
exponent), `calculate_vpd` is strictly increasing in the temperature for every
fixed dew point below it, and strictly decreasing in the dew point for every
fixed temperature. -/
theorem calculate_vpd_monotone (t1 t2 d t d1 d2 : ℝ) :
    (-243.04 < t1 → t1 < t2 → d < t1 →
        calculate_vpd t1 d < calculate_vpd t2 d) ∧
      (-243.04 < d1 → d1 < d2 →
        calculate_vpd t d1 > calculate_vpd t d2) := by
  constructor
  · intro h1 h12 hd
    have h := Real.exp_lt_exp.2 (magnus_ratio_strict_mono h1 h12)
    show 6.1094 * Real.exp (17.625 * t1 / (243.04 + t1)) -
        6.1094 * Real.exp (17.625 * d / (243.04 + d)) <
        6.1094 * Real.exp (17.625 * t2 / (243.04 + t2)) -
        6.1094 * Real.exp (17.625 * d / (243.04 + d))
    nlinarith
  · intro h1 h12
    have h := Real.exp_lt_exp.2 (magnus_ratio_strict_mono h1 h12)
    show 6.1094 * Real.exp (17.625 * t / (243.04 + t)) -
        6.1094 * Real.exp (17.625 * d1 / (243.04 + d1)) >
        6.1094 * Real.exp (17.625 * t / (243.04 + t)) -
        6.1094 * Real.exp (17.625 * d2 / (243.04 + d2))
    nlinarith

/-- Witness for the amended C6 at concrete inputs: temperatures `1 < 2` with
dew point `-1`, and dew points `0 < 1` with temperature `0`. -/
theorem calculate_vpd_monotone_witness :
    ((-243.04 : ℝ) < 1 ∧ (1 : ℝ) < 2 ∧ (-1 : ℝ) < 1 ∧
        calculate_vpd 1 (-1) < calculate_vpd 2 (-1)) ∧
      ((-243.04 : ℝ) < 0 ∧ (0 : ℝ) < 1 ∧
        calculate_vpd 0 0 > calculate_vpd 0 1) :=
  ⟨⟨by norm_num, by norm_num, by norm_num,
      (calculate_vpd_monotone 1 2 (-1) 0 0 1).1 (by norm_num) (by norm_num)
        (by norm_num)⟩,
    ⟨by norm_num, by norm_num,
      (calculate_vpd_monotone 1 2 (-1) 0 0 1).2 (by norm_num) (by norm_num)⟩⟩

/-- C9: `calculate_vpd` is antisymmetric in its two arguments:
`calculate_vpd t d = -calculate_vpd d t` for all real `t`, `d` (in particular
whenever both denominators are nonzero). -/
theorem calculate_vpd_antisymm (t d : ℝ) :
    calculate_vpd t d = -calculate_vpd d t := by
  simp [calculate_vpd]
